import Mathlib

/-!
Verification development for the UMI-MIRU marine-conditions dashboard
(`src/main.py`). The derivation core of the dashboard — moon-age / tide-phase
computation, wave-status and wind-risk classification, the Tokyo demand
heuristic, and the per-location / per-date aggregation that shapes the display
tables — is embedded shallowly below. Python floats are modelled as `ℚ`,
Python `None` as `Option`, calendar dates as integer day numbers (any linear
day count; `2000-01-06` is the fixed constant `known_new_moon`), and the
parallel `time` / `wave_height` arrays of the upstream JSON payloads as
parallel Lean lists indexed in the same way the Python list comprehensions
index them.
-/

/-- Round-half-to-even on rationals, the tie-breaking rule used by Python
`round` and by pandas `Series.round`. -/
def round_half_even (q : ℚ) : ℤ :=
  if q - ⌊q⌋ < 1/2 then ⌊q⌋
  else if 1/2 < q - ⌊q⌋ then ⌊q⌋ + 1
  else if ⌊q⌋ % 2 = 0 then ⌊q⌋ else ⌊q⌋ + 1

/-- Rounding to one decimal place: Python `round(x, 1)` / pandas `.round(1)`. -/
def round1 (q : ℚ) : ℚ := (round_half_even (q * 10) : ℚ) / 10

/-- Python `f"{x:.1f}"`: render with exactly one digit after the decimal
point, rounding half to even. -/
def fmt1 (q : ℚ) : String :=
  let n := round_half_even (q * 10)
  if n < 0 then "-" ++ toString ((-n) / 10) ++ "." ++ toString ((-n) % 10)
  else toString (n / 10) ++ "." ++ toString (n % 10)

/-- The synodic month length `29.53059` used by `calculate_moon_age`. -/
def synodic : ℚ := 2953059 / 100000

/-- Day number of the reference new moon `datetime(2000, 1, 6)` in the
Rata Die day count (day 1 = 0001-01-01). -/
def known_new_moon : ℤ := 730125

/-- Embeds `calculate_moon_age` (src/main.py:35-39): the day difference to the
reference new moon, taken modulo `29.53059` with Python `%` semantics
(`a % m = a - m * ⌊a / m⌋`, sign of the divisor), rounded to one decimal. -/
def calculate_moon_age (date : ℤ) : ℚ :=
  let days_diff : ℤ := date - known_new_moon
  let moon_age : ℚ := (days_diff : ℚ) - synodic * (⌊(days_diff : ℚ) / synodic⌋ : ℚ)
  round1 moon_age

/-- Embeds `get_tide_name` (src/main.py:41-47). -/
def get_tide_name (moon_age : ℚ) : String :=
  let ma := round_half_even moon_age
  if ma ∈ [0, 1, 2, 14, 15, 16, 29, 30] then "大潮"
  else if ma ∈ [3, 4, 5, 17, 18, 19] then "中潮"
  else if ma ∈ [6, 7, 8, 9, 20, 21, 22, 23] then "小潮"
  else if ma ∈ [10, 11, 12, 24, 25, 26] then "長潮/若潮"
  else "中潮"

/-- Embeds `get_wave_status_text` (src/main.py:70-74); `none` is Python
`None`. -/
def get_wave_status_text (wave_height : Option ℚ) : String :=
  match wave_height with
  | none => "不明"
  | some w =>
    if w ≥ 2.5 then "時化"
    else if w ≥ 1.5 then "注意"
    else "凪"

/-- The `daily` block of the Tokyo weather payload: parallel arrays keyed by
date string, as consumed by `get_tokyo_demand_prediction`. Precipitation
probability is an integer percentage, as delivered by the upstream API and as
interpolated into the advisory string. -/
structure DailyWeather where
  time : List String
  temperature_2m_max : List ℚ
  precipitation_probability_max : List ℤ
deriving DecidableEq

/-- A weather payload that parsed successfully; `daily = none` models a payload
without a `daily` key. An absent payload (fetch failure / falsy value) is
`none : Option TokyoWeather` at the call site. -/
structure TokyoWeather where
  daily : Option DailyWeather
deriving DecidableEq

/-- Embeds `get_tokyo_demand_prediction` (src/main.py:76-93). The wall clock
read `datetime.now().strftime(...)` is passed in as the explicit `today`
argument; the linear scan with `break` is the first index whose date string
equals `today`, `-1` when there is none. -/
def get_tokyo_demand_prediction (tokyo_weather_data : Option TokyoWeather)
    (today : String) : String :=
  match tokyo_weather_data with
  | none => "データなし"
  | some w =>
    match w.daily with
    | none => "データなし"
    | some daily_data =>
      let today_index : ℤ :=
        match daily_data.time.findIdx? (fun date_str => date_str = today) with
        | some i => (i : ℤ)
        | none => -1
      let recommendation : List String :=
        if today_index ≠ -1 then
          let temp_today_max := daily_data.temperature_2m_max.getD today_index.toNat 0
          let precip_prob := daily_data.precipitation_probability_max.getD today_index.toNat 0
          (if temp_today_max < 10 then ["気温低下(鍋)"] else []) ++
          (if precip_prob ≥ 50 then ["雨" ++ toString precip_prob ++ "%(客足)"] else [])
        else []
      if recommendation ≠ [] then String.intercalate " / " recommendation
      else "特になし"

/-- The `hourly` block of a marine payload: parallel `time` and `wave_height`
arrays. Each timestamp is abstracted to the calendar date (integer day number)
that `datetime.fromisoformat(time_str).date()` extracts from it; a null wave
height is `none`. -/
structure HourlyMarine where
  time : List ℤ
  wave_height : List (Option ℚ)
deriving DecidableEq

/-- Embeds `current_day_indices` (src/main.py:137): the indices of the hourly
samples whose calendar date equals the target date. -/
def current_day_indices (h : HourlyMarine) (date : ℤ) : List ℕ :=
  (List.range h.time.length).filter (fun j => h.time.getD j 0 = date)

/-- Embeds `daily_waves` (src/main.py:139): the non-null wave heights at the
matching indices. -/
def daily_waves (h : HourlyMarine) (date : ℤ) : List ℚ :=
  (current_day_indices h date).filterMap (fun j => h.wave_height.getD j none)

/-- Embeds `avg_wave = np.mean(daily_waves)` (src/main.py:141). -/
def avg_wave (h : HourlyMarine) (date : ℤ) : ℚ :=
  (daily_waves h date).sum / (daily_waves h date).length

/-- Embeds one cell of the marine matrix row (src/main.py:136-147): the valid
branch formats status, average, tide name and moon age; a date whose matching
samples are all null degrades to "データなし"; a date with no matching samples
degrades to "-". -/
def cellFor (h : HourlyMarine) (date : ℤ) : String :=
  if current_day_indices h date ≠ [] then
    if daily_waves h date ≠ [] then
      let avg := avg_wave h date
      let status_text := get_wave_status_text (some avg)
      let moon_age_val := calculate_moon_age date
      let tide_name := get_tide_name moon_age_val
      status_text ++ " " ++ fmt1 avg ++ "m (" ++ tide_name ++ ", 月齢" ++ fmt1 moon_age_val ++ ")"
    else "データなし"
  else "-"

/-- Embeds one location row of the marine matrix (src/main.py:133-149): a
present payload with an `hourly` block yields one cell per date; an absent
payload (fetch failure or missing `hourly`) yields "取得失敗" in every
column. -/
def buildRow (marine_data : Option HourlyMarine) (dates : List ℤ) : List String :=
  match marine_data with
  | some h => dates.map (cellFor h)
  | none => dates.map (fun _ => "取得失敗")

/-- One sample of the Tokyo hourly series as used by the wind-forecast block:
a timestamp (integer hour number in any linear count, so that the pandas
comparison `time >= now` is integer `≤`) and a wind speed. -/
structure HourlySample where
  time : ℤ
  wind_speed_10m : ℚ
deriving DecidableEq

/-- Embeds `hourly_df = hourly_df[hourly_df['time'] >= now]`
(src/main.py:190). -/
def filtered_from (hourly : List HourlySample) (now : ℤ) : List HourlySample :=
  hourly.filter (fun s => now ≤ s.time)

/-- Embeds `display_df = hourly_df.head(24)` (src/main.py:191). -/
def display_rows (hourly : List HourlySample) (now : ℤ) : List HourlySample :=
  (filtered_from hourly now).take 24

/-- Embeds the rounded wind column
`display_df['wind_speed_10m'].round(1)` (src/main.py:194). -/
def display_wind_rounded (hourly : List HourlySample) (now : ℤ) : List ℚ :=
  (display_rows hourly now).map (fun s => round1 s.wind_speed_10m)

/-- Embeds `max_wind_24h = display_df['wind_speed_10m'].max()`
(src/main.py:204), taken after the rounding of line 194; `none` models the NaN
of an empty column. -/
def max_wind_24h (hourly : List HourlySample) (now : ℤ) : Option ℚ :=
  (display_wind_rounded hourly now).max?

/-- Embeds `highlight_wind` (src/main.py:196-200). -/
def highlight_wind (val : ℚ) : String :=
  if val ≥ 10 then "background-color: #ffcccc"
  else if val ≥ 5 then "background-color: #ffffcc"
  else ""

/-- Embeds the 24-hour summary banner (src/main.py:205-207): the message text
selected from `max_wind_24h`. -/
def wind_banner (max_wind : ℚ) : String :=
  if max_wind ≥ 10 then "🔴 今後24時間: 最大" ++ fmt1 max_wind ++ "m/s の強風予報"
  else if max_wind ≥ 5 then "🟡 今後24時間: 最大" ++ fmt1 max_wind ++ "m/s の風あり"
  else "🔵 今後24時間は穏やか"

/-! Helper lemmas shared by the claim theorems. -/

/-- Rounding half to even fixes the integers. -/
theorem round_half_even_intCast (m : ℤ) : round_half_even (m : ℚ) = m := by
  unfold round_half_even
  rw [Int.floor_intCast]
  norm_num

/-- The rounded value never drops below the floor of the input. -/
theorem floor_le_round_half_even (q : ℚ) : ⌊q⌋ ≤ round_half_even q := by
  unfold round_half_even
  split
  · exact le_refl _
  · split
    · omega
    · split <;> omega

/-- The rounded value exceeds the input by at most one half. -/
theorem round_half_even_le (q : ℚ) : (round_half_even q : ℚ) ≤ q + 1/2 := by
  have h0 := Int.fract_nonneg q
  have h1 := Int.fract_lt_one q
  rw [Int.fract] at h0 h1
  have hfq : (⌊q⌋ : ℚ) ≤ q := Int.floor_le q
  unfold round_half_even
  split
  · linarith
  · rename_i hlt
    push_neg at hlt
    split
    · push_cast
      linarith
    · split <;> push_cast <;> linarith

/-- The element produced by `List.max?` on rationals is a member of the list
and an upper bound of it. -/
theorem rat_max?_spec {l : List ℚ} {a : ℚ} (h : l.max? = some a) :
    a ∈ l ∧ ∀ b ∈ l, b ≤ a := by
  haveI : Std.Antisymm ((· : ℚ) ≤ ·) := ⟨@fun _ _ h1 h2 => le_antisymm h1 h2⟩
  exact (List.max?_eq_some_iff (fun a => le_refl a) (fun a b => max_choice a b)
    (fun a b c => max_le_iff)).1 h

/-! Claim theorems. -/

/-- C7: the wave-status classifier maps an absent average to "不明" (UNKNOWN),
a value at least 2.5 to "時化" (ROUGH), a value in [1.5, 2.5) to "注意"
(CAUTION) and anything below 1.5 to "凪" (CALM), with lower bounds
inclusive. -/
theorem C7_wave_status_thresholds :
    get_wave_status_text none = "不明" ∧
    (∀ w : ℚ, 2.5 ≤ w → get_wave_status_text (some w) = "時化") ∧
    (∀ w : ℚ, 1.5 ≤ w → w < 2.5 → get_wave_status_text (some w) = "注意") ∧
    (∀ w : ℚ, w < 1.5 → get_wave_status_text (some w) = "凪") := by
  refine ⟨rfl, ?_, ?_, ?_⟩
  · intro w h1
    simp only [get_wave_status_text]
    rw [if_pos h1]
  · intro w h1 h2
    simp only [get_wave_status_text]
    rw [if_neg (by exact not_le.mpr h2), if_pos h1]
  · intro w h1
    simp only [get_wave_status_text]
    rw [if_neg (by exact not_le.mpr (by linarith)), if_neg (by exact not_le.mpr h1)]

/-- Witness for C7 at the boundary inputs 2.5, 1.5 and 1.49 named by the
claim. -/
theorem C7_wave_status_thresholds_witness :
    get_wave_status_text none = "不明" ∧
    get_wave_status_text (some 2.5) = "時化" ∧
    get_wave_status_text (some 1.5) = "注意" ∧
    get_wave_status_text (some (149/100)) = "凪" :=
  ⟨C7_wave_status_thresholds.1,
   C7_wave_status_thresholds.2.1 2.5 (le_refl _),
   C7_wave_status_thresholds.2.2.1 1.5 (le_refl _) (by norm_num),
   C7_wave_status_thresholds.2.2.2 (149/100) (by norm_num)⟩

/-- C8: the wind-risk classification used for cell highlighting and the 24h
banner: at least 10 m/s is the HIGH band (red cell, 強風 banner), at least 5
and below 10 the MODERATE band (yellow cell, 風あり banner), anything lower
the LOW band (no highlight, 穏やか banner). -/
theorem C8_wind_risk_thresholds :
    (∀ v : ℚ, 10 ≤ v →
      highlight_wind v = "background-color: #ffcccc" ∧
      wind_banner v = "🔴 今後24時間: 最大" ++ fmt1 v ++ "m/s の強風予報") ∧
    (∀ v : ℚ, 5 ≤ v → v < 10 →
      highlight_wind v = "background-color: #ffffcc" ∧
      wind_banner v = "🟡 今後24時間: 最大" ++ fmt1 v ++ "m/s の風あり") ∧
    (∀ v : ℚ, v < 5 →
      highlight_wind v = "" ∧
      wind_banner v = "🔵 今後24時間は穏やか") := by
  refine ⟨?_, ?_, ?_⟩
  · intro v h1
    constructor
    · simp only [highlight_wind]
      rw [if_pos h1]
    · simp only [wind_banner]
      rw [if_pos h1]
  · intro v h1 h2
    constructor
    · simp only [highlight_wind]
      rw [if_neg (by exact not_le.mpr h2), if_pos h1]
    · simp only [wind_banner]
      rw [if_neg (by exact not_le.mpr h2), if_pos h1]
  · intro v h1
    constructor
    · simp only [highlight_wind]
      rw [if_neg (by exact not_le.mpr (by linarith)), if_neg (by exact not_le.mpr h1)]
    · simp only [wind_banner]
      rw [if_neg (by exact not_le.mpr (by linarith)), if_neg (by exact not_le.mpr h1)]

/-- Witness for C8 at 10.0, 9.99 and 4.99, the inputs named by the claim. -/
theorem C8_wind_risk_thresholds_witness :
    highlight_wind 10 = "background-color: #ffcccc" ∧
    highlight_wind (999/100) = "background-color: #ffffcc" ∧
    highlight_wind (499/100) = "" :=
  ⟨(C8_wind_risk_thresholds.1 10 (le_refl _)).1,
   (C8_wind_risk_thresholds.2.1 (999/100) (by norm_num) (by norm_num)).1,
   (C8_wind_risk_thresholds.2.2 (499/100) (by norm_num)).1⟩

/-- C1: for every integer moon age in 0..31 the tide name is fixed by exact
bucket membership — the spring-tide bucket (including 30), the mid-tide
bucket, the neap-tide bucket, the slack-tide bucket — and every unmapped
integer (13, 27, 28, 31) falls back to mid-tide; the Lean embedding is total,
so no input raises. -/
theorem C1_tide_name_buckets :
    ∀ m : ℤ, 0 ≤ m → m ≤ 31 →
      ((m ∈ [0, 1, 2, 14, 15, 16, 29, 30] → get_tide_name (m : ℚ) = "大潮") ∧
       (m ∈ [3, 4, 5, 17, 18, 19] → get_tide_name (m : ℚ) = "中潮") ∧
       (m ∈ [6, 7, 8, 9, 20, 21, 22, 23] → get_tide_name (m : ℚ) = "小潮") ∧
       (m ∈ [10, 11, 12, 24, 25, 26] → get_tide_name (m : ℚ) = "長潮/若潮") ∧
       (m ∈ [13, 27, 28, 31] → get_tide_name (m : ℚ) = "中潮")) := by
  intro m _ _
  refine ⟨?_, ?_, ?_, ?_, ?_⟩ <;>
    · intro hm
      fin_cases hm <;>
        · simp only [get_tide_name, round_half_even_intCast]
          decide

/-- Witness for C1: the rounded moon age 30 resolves to spring-tide. -/
theorem C1_tide_name_buckets_witness : get_tide_name ((30 : ℤ) : ℚ) = "大潮" :=
  (C1_tide_name_buckets 30 (by norm_num) (by norm_num)).1 (by norm_num)

/-- C2 counterexample: a daily series whose only date is not today makes
`get_tokyo_demand_prediction` return the "nothing notable" sentinel
"特になし", not the "no data" sentinel "データなし" the claim requires. -/
theorem C2_no_today_entry_counterexample :
    get_tokyo_demand_prediction
        (some ⟨some ⟨["2026-01-01"], [5], [90]⟩⟩) "2026-01-02" = "特になし" ∧
    "特になし" ≠ "データなし" := by
  constructor
  · rfl
  · decide

/-- C2 amended: the "no data" sentinel "データなし" is produced exactly when
the payload is absent or lacks its daily block; a present daily series with no
entry whose date equals today instead falls through with an empty
recommendation list and yields the "nothing notable" sentinel "特になし". -/
theorem C2_no_today_entry_amended :
    (∀ today : String, get_tokyo_demand_prediction none today = "データなし") ∧
    (∀ today : String, get_tokyo_demand_prediction (some ⟨none⟩) today = "データなし") ∧
    (∀ (dd : DailyWeather) (today : String),
      (∀ s ∈ dd.time, s ≠ today) →
      get_tokyo_demand_prediction (some ⟨some dd⟩) today = "特になし") := by
  refine ⟨fun _ => rfl, fun _ => rfl, ?_⟩
  intro dd today hnone
  have hfind : dd.time.findIdx? (fun date_str => date_str = today) = none := by
    rw [List.findIdx?_eq_none_iff]
    intro s hs
    simp [hnone s hs]
  simp [get_tokyo_demand_prediction, hfind]

/-- Witness for C2 amended: a one-entry series dated away from today yields
"特になし", and the two absent-payload shapes yield "データなし". -/
theorem C2_no_today_entry_amended_witness :
    get_tokyo_demand_prediction none "2026-01-02" = "データなし" ∧
    get_tokyo_demand_prediction (some ⟨none⟩) "2026-01-02" = "データなし" ∧
    get_tokyo_demand_prediction
      (some ⟨some ⟨["2026-01-01"], [5], [90]⟩⟩) "2026-01-02" = "特になし" :=
  ⟨C2_no_today_entry_amended.1 "2026-01-02",
   C2_no_today_entry_amended.2.1 "2026-01-02",
   C2_no_today_entry_amended.2.2 ⟨["2026-01-01"], [5], [90]⟩ "2026-01-02"
     (by decide)⟩

/-- C6: with an entry for today at index `i` holding max temperature `t` and
max precipitation probability `p`, the advisory is built temperature-reason
first ("気温低下(鍋)" iff `t < 10`), then the rain reason ("雨p%(客足)" iff
`p ≥ 50`), joined by " / ", and is the sentinel "特になし" when neither
triggers. -/
theorem C6_demand_reason_order :
    ∀ (dd : DailyWeather) (today : String) (i : ℕ),
      dd.time.findIdx? (fun date_str => date_str = today) = some i →
      (dd.temperature_2m_max.getD i 0 < 10 →
        50 ≤ dd.precipitation_probability_max.getD i 0 →
        get_tokyo_demand_prediction (some ⟨some dd⟩) today =
          "気温低下(鍋) / 雨" ++ toString (dd.precipitation_probability_max.getD i 0) ++ "%(客足)") ∧
      (dd.temperature_2m_max.getD i 0 < 10 →
        dd.precipitation_probability_max.getD i 0 < 50 →
        get_tokyo_demand_prediction (some ⟨some dd⟩) today = "気温低下(鍋)") ∧
      (10 ≤ dd.temperature_2m_max.getD i 0 →
        50 ≤ dd.precipitation_probability_max.getD i 0 →
        get_tokyo_demand_prediction (some ⟨some dd⟩) today =
          "雨" ++ toString (dd.precipitation_probability_max.getD i 0) ++ "%(客足)") ∧
      (10 ≤ dd.temperature_2m_max.getD i 0 →
        dd.precipitation_probability_max.getD i 0 < 50 →
        get_tokyo_demand_prediction (some ⟨some dd⟩) today = "特になし") := by
  intro dd today i hfind
  have hidx : ((i : ℤ) ≠ -1) := by omega
  refine ⟨?_, ?_, ?_, ?_⟩ <;> intro ht hp <;>
    simp only [get_tokyo_demand_prediction, hfind, ge_iff_le, Int.toNat_natCast]
  · rw [if_pos hidx, if_pos ht, if_pos hp, List.singleton_append,
      if_pos (List.cons_ne_nil _ _)]
    show "気温低下(鍋)" ++ " / " ++ _ = _
    simp [← String.append_assoc]
  · rw [if_pos hidx, if_pos ht, if_neg (not_le.mpr hp)]
    rfl
  · rw [if_pos hidx, if_neg (not_lt.mpr ht), if_pos hp]
    rfl
  · rw [if_pos hidx, if_neg (not_lt.mpr ht), if_neg (not_le.mpr hp)]
    rfl

/-- Witness for C6 at the spec's example: max temperature 9 and precipitation
probability 60 yield both reasons joined temperature-first. -/
theorem C6_demand_reason_order_witness :
    get_tokyo_demand_prediction
      (some ⟨some ⟨["2026-01-01"], [9], [60]⟩⟩) "2026-01-01"
      = "気温低下(鍋) / 雨60%(客足)" :=
  (C6_demand_reason_order ⟨["2026-01-01"], [9], [60]⟩ "2026-01-01" 0
      (by decide)).1 (by norm_num) (by norm_num)

/-- Prepending to an hourly series one more sample dated `d` whose wave height
is null leaves `daily_waves` for `d` unchanged: null samples enter neither the
collected values nor, downstream, the sum or the divisor of the mean. -/
theorem daily_waves_prepend_null (h : HourlyMarine) (d : ℤ) :
    daily_waves ⟨d :: h.time, none :: h.wave_height⟩ d = daily_waves h d := by
  obtain ⟨ts, ws⟩ := h
  unfold daily_waves current_day_indices
  simp [List.range_succ_eq_map, List.filter_cons, List.filter_map,
    List.filterMap_map, Function.comp_def, Nat.succ_eq_add_one,
    List.getElem?_cons_succ]

/-- C4: the three degraded cell states of the marine matrix are produced by
their three distinct conditions — "取得失敗" for every date when the raw
series is absent, "-" when no sample matches the date, "データなし" when
samples match but all wave heights are null — and the three strings are
pairwise distinct. -/
theorem C4_degraded_cell_states :
    (∀ dates : List ℤ, buildRow none dates = dates.map (fun _ => "取得失敗")) ∧
    (∀ (h : HourlyMarine) (d : ℤ),
      current_day_indices h d = [] → cellFor h d = "-") ∧
    (∀ (h : HourlyMarine) (d : ℤ),
      current_day_indices h d ≠ [] →
      (∀ j ∈ current_day_indices h d, h.wave_height.getD j none = none) →
      cellFor h d = "データなし") ∧
    (("データなし" : String) ≠ "-" ∧ ("データなし" : String) ≠ "取得失敗" ∧
      ("-" : String) ≠ "取得失敗") := by
  refine ⟨fun _ => rfl, ?_, ?_, by decide⟩
  · intro h d hnil
    simp [cellFor, hnil]
  · intro h d hne hall
    have hdw : daily_waves h d = [] := List.filterMap_eq_nil_iff.mpr hall
    simp [cellFor, hne, hdw]

/-- Witness for C4: a two-sample series dated day 5 with both wave heights
null yields "データなし" on day 5 and "-" on day 6, and an absent series
yields a row of "取得失敗". -/
theorem C4_degraded_cell_states_witness :
    buildRow none [5, 6] = ["取得失敗", "取得失敗"] ∧
    cellFor ⟨[5, 5], [none, none]⟩ 6 = "-" ∧
    cellFor ⟨[5, 5], [none, none]⟩ 5 = "データなし" :=
  ⟨(C4_degraded_cell_states.1 [5, 6]).trans rfl,
   C4_degraded_cell_states.2.1 ⟨[5, 5], [none, none]⟩ 6 (by decide),
   C4_degraded_cell_states.2.2.1 ⟨[5, 5], [none, none]⟩ 5 (by decide) (by decide)⟩

/-- C5: the per-date average is the arithmetic mean of the collected non-null
wave heights — adding a null sample for the date changes neither
`daily_waves` nor `avg_wave` — and on the concrete values
[1.0, 2.0, null, 3.0] for one date the average is 2.0. -/
theorem C5_mean_excludes_nulls :
    (∀ (h : HourlyMarine) (d : ℤ),
      avg_wave h d = (daily_waves h d).sum / (daily_waves h d).length) ∧
    (∀ (h : HourlyMarine) (d : ℤ),
      daily_waves ⟨d :: h.time, none :: h.wave_height⟩ d = daily_waves h d ∧
      avg_wave ⟨d :: h.time, none :: h.wave_height⟩ d = avg_wave h d) ∧
    avg_wave ⟨[5, 5, 5, 5], [some 1, some 2, none, some 3]⟩ 5 = 2 := by
  refine ⟨fun _ _ => rfl, ?_, ?_⟩
  · intro h d
    refine ⟨daily_waves_prepend_null h d, ?_⟩
    unfold avg_wave
    rw [daily_waves_prepend_null h d]
  · have hdw : daily_waves ⟨[5, 5, 5, 5], [some 1, some 2, none, some 3]⟩ 5
        = [1, 2, 3] := by decide
    unfold avg_wave
    rw [hdw]
    norm_num

/-- C3: the wind-risk series keeps the samples with timestamp at least `now`,
in their original (chronological) order, truncated to the first 24; when at
least 24 samples qualify it has exactly 24 entries (so 30 samples starting at
`now` yield exactly the first 24); each displayed speed is the one-decimal
rounding of the sample speed; and the banner maximum is the true maximum of
the displayed window speeds. -/
theorem C3_wind_window :
    (∀ (hourly : List HourlySample) (now : ℤ),
      display_rows hourly now = (filtered_from hourly now).take 24 ∧
      display_wind_rounded hourly now =
        (display_rows hourly now).map (fun s => round1 s.wind_speed_10m)) ∧
    (∀ (hourly : List HourlySample) (now : ℤ),
      (∀ s ∈ hourly, now ≤ s.time) → display_rows hourly now = hourly.take 24) ∧
    (∀ (hourly : List HourlySample) (now : ℤ),
      24 ≤ (filtered_from hourly now).length → (display_rows hourly now).length = 24) ∧
    (∀ (hourly : List HourlySample) (now : ℤ),
      hourly.Pairwise (fun a b => a.time ≤ b.time) →
      (display_rows hourly now).Pairwise (fun a b => a.time ≤ b.time)) ∧
    (∀ (hourly : List HourlySample) (now : ℤ) (x : ℚ),
      max_wind_24h hourly now = some x →
      x ∈ display_wind_rounded hourly now ∧
      ∀ y ∈ display_wind_rounded hourly now, y ≤ x) := by
  refine ⟨fun _ _ => ⟨rfl, rfl⟩, ?_, ?_, ?_, ?_⟩
  · intro hourly now hall
    unfold display_rows filtered_from
    rw [List.filter_eq_self.mpr]
    intro s hs
    simpa using hall s hs
  · intro hourly now hlen
    unfold display_rows
    rw [List.length_take]
    omega
  · intro hourly now hsorted
    have hsub : List.Sublist (display_rows hourly now) hourly :=
      (List.take_sublist _ _).trans (List.filter_sublist _)
    exact hsorted.sublist hsub
  · intro hourly now x hmax
    exact rat_max?_spec hmax

/-- Witness for C3: 30 samples timestamped 0..29 from `now = 0` yield exactly
the first 24 rows with 24 entries, and on a two-sample window the banner
maximum 3 is a member of and an upper bound of the displayed speeds. -/
theorem C3_wind_window_witness :
    display_rows ((List.range 30).map (fun k => ⟨k, k⟩)) 0
        = ((List.range 30).map (fun k => (⟨k, k⟩ : HourlySample))).take 24 ∧
    (display_rows ((List.range 30).map (fun k => ⟨k, k⟩)) 0).length = 24 ∧
    ((3 : ℚ) ∈ display_wind_rounded [⟨0, 2⟩, ⟨1, 3⟩] 0 ∧
      ∀ y ∈ display_wind_rounded [⟨0, 2⟩, ⟨1, 3⟩] 0, y ≤ 3) :=
  ⟨C3_wind_window.2.1 ((List.range 30).map (fun k => ⟨k, k⟩)) 0 (by decide),
   C3_wind_window.2.2.1 ((List.range 30).map (fun k => ⟨k, k⟩)) 0 (by decide),
   C3_wind_window.2.2.2.2 [⟨0, 2⟩, ⟨1, 3⟩] 0 3 (by
     show (display_wind_rounded [⟨0, 2⟩, ⟨1, 3⟩] 0).max? = some 3
     have h2 : display_wind_rounded [⟨0, 2⟩, ⟨1, 3⟩] 0 = [round1 2, round1 3] := rfl
     have hr2 : round1 2 = 2 := by norm_num [round1, round_half_even]
     have hr3 : round1 3 = 3 := by norm_num [round1, round_half_even]
     rw [h2, hr2, hr3]
     norm_num [List.max?])⟩

/-- C10: the banner maximum is the maximum of the speeds after the one-decimal
rounding of the display column — a member of and upper bound of the rounded
speeds — and not in general the maximum of the raw speeds: with raw speeds
9.94 and 5 the banner reports 9.9 while the raw maximum is 9.94. -/
theorem C10_banner_max_over_rounded :
    (∀ (hourly : List HourlySample) (now : ℤ) (x : ℚ),
      max_wind_24h hourly now = some x →
      x ∈ (display_rows hourly now).map (fun s => round1 s.wind_speed_10m) ∧
      ∀ y ∈ (display_rows hourly now).map (fun s => round1 s.wind_speed_10m), y ≤ x) ∧
    (max_wind_24h [⟨0, 994/100⟩, ⟨1, 5⟩] 0 = some (99/10) ∧
      (([⟨0, 994/100⟩, ⟨1, 5⟩] : List HourlySample).map
          (fun s => s.wind_speed_10m)).max? = some (994/100) ∧
      (99/10 : ℚ) ≠ 994/100) := by
  refine ⟨?_, ?_, ?_, by norm_num⟩
  · intro hourly now x hmax
    exact rat_max?_spec hmax
  · show (display_wind_rounded [⟨0, 994/100⟩, ⟨1, 5⟩] 0).max? = some (99/10)
    have h2 : display_wind_rounded [⟨0, 994/100⟩, ⟨1, 5⟩] 0
        = [round1 (994/100), round1 5] := rfl
    have hra : round1 (994/100) = 99/10 := by norm_num [round1, round_half_even]
    have hrb : round1 5 = 5 := by norm_num [round1, round_half_even]
    rw [h2, hra, hrb]
    norm_num [List.max?]
  · show ([(994/100 : ℚ), 5]).max? = some (994/100)
    norm_num [List.max?]

/-- Witness for C10: at the divergence input the reported maximum 9.9 is a
member of and an upper bound of the rounded display speeds. -/
theorem C10_banner_max_over_rounded_witness :
    (99/10 : ℚ) ∈ (display_rows [⟨0, 994/100⟩, ⟨1, 5⟩] 0).map
        (fun s => round1 s.wind_speed_10m) ∧
    ∀ y ∈ (display_rows [⟨0, 994/100⟩, ⟨1, 5⟩] 0).map
        (fun s => round1 s.wind_speed_10m), y ≤ 99/10 :=
  C10_banner_max_over_rounded.1 [⟨0, 994/100⟩, ⟨1, 5⟩] 0 (99/10)
    C10_banner_max_over_rounded.2.1

/-- C9: for every date — integer day numbers on either side of the reference
new moon — the moon age is the day difference taken modulo 29.53059 (Python
`%`: `a - m * ⌊a / m⌋`) rounded to one decimal, and the result lies in the
interval [0, 29.53059); five days before the reference the value is 24.5. -/
theorem C9_moon_age_range :
    ∀ date : ℤ,
      calculate_moon_age date =
        round1 (((date - known_new_moon : ℤ) : ℚ) -
          synodic * (⌊((date - known_new_moon : ℤ) : ℚ) / synodic⌋ : ℚ)) ∧
      0 ≤ calculate_moon_age date ∧
      calculate_moon_age date < synodic ∧
      calculate_moon_age (known_new_moon - 5) = 49/2 := by
  intro date
  have hsyn : (0 : ℚ) < synodic := by norm_num [synodic]
  set x : ℚ := ((date - known_new_moon : ℤ) : ℚ) / synodic with hx
  set m : ℚ := ((date - known_new_moon : ℤ) : ℚ) - synodic * (⌊x⌋ : ℚ) with hmdef
  have hfr0 : 0 ≤ x - ⌊x⌋ := by
    have h := Int.fract_nonneg x
    rw [Int.fract] at h
    exact h
  have hfr1 : x - ⌊x⌋ < 1 := by
    have h := Int.fract_lt_one x
    rw [Int.fract] at h
    exact h
  have hm : m = synodic * (x - ⌊x⌋) := by
    rw [hmdef, hx]
    field_simp
  have h0m : 0 ≤ m := by
    rw [hm]
    exact mul_nonneg hsyn.le hfr0
  have hmu : m < synodic := by
    rw [hm]
    calc synodic * (x - ⌊x⌋) < synodic * 1 := by
          exact mul_lt_mul_of_pos_left hfr1 hsyn
      _ = synodic := mul_one synodic
  have hcalc : calculate_moon_age date = round1 m := rfl
  have hlow : (0 : ℤ) ≤ round_half_even (m * 10) := by
    refine le_trans ?_ (floor_le_round_half_even (m * 10))
    rw [Int.le_floor]
    push_cast
    nlinarith
  have hhigh : round_half_even (m * 10) ≤ 295 := by
    have h1 : (round_half_even (m * 10) : ℚ) ≤ m * 10 + 1/2 :=
      round_half_even_le (m * 10)
    have h2 : (round_half_even (m * 10) : ℚ) < 296 := by
      have : m * 10 < synodic * 10 := by linarith
      have hs : synodic * 10 = 2953059/10000 := by norm_num [synodic]
      nlinarith
    have h3 : round_half_even (m * 10) < 296 := by exact_mod_cast h2
    omega
  refine ⟨rfl, ?_, ?_, ?_⟩
  · rw [hcalc]
    unfold round1
    positivity
  · rw [hcalc]
    unfold round1
    rw [div_lt_iff₀ (by norm_num : (0:ℚ) < 10)]
    calc (round_half_even (m * 10) : ℚ) ≤ 295 := by exact_mod_cast hhigh
      _ < synodic * 10 := by norm_num [synodic]
  · norm_num [calculate_moon_age, known_new_moon, synodic, round1, round_half_even]
